import Mathlib

/-!
Verification of the home-energy-dashboard core against its specification.

The development shallowly embeds the two core subsystems:
* the per-vendor bill field extractors (src/BillParser.js, the refactored
  per-vendor classes NationalGridParser / SunrunParser / EversourceParser),
  modelled after their regex-matching phase as functions from captured
  match groups to the returned record, and
* the monthly reconciliation engine (src/EnergyAnalyzer.js), modelled
  with exact rational arithmetic in place of IEEE doubles and calendar
  dates as (year, month, day) triples in place of ISO `YYYY-MM-DD`
  strings (lexicographic order on the padded strings coincides with the
  componentwise order on the triples).
-/

namespace HomeEnergy

/-- A calendar date, the components of an ISO `YYYY-MM-DD` string. -/
structure Date where
  year : Int
  month : Nat
  day : Nat
deriving DecidableEq, Repr

/-- ISO-string comparison of two dates: lexicographic on the components.
For four-digit years and zero-padded months/days this is exactly the
JavaScript string comparison used on date keys. -/
def Date.leb (a b : Date) : Bool :=
  if a.year != b.year then a.year < b.year
  else if a.month != b.month then a.month < b.month
  else a.day ≤ b.day

/-- Gregorian leap-year rule, as implemented by the JS Date object. -/
def isLeapYear (y : Int) : Bool :=
  (y % 4 == 0 && y % 100 != 0) || (y % 400 == 0)

/-- Number of days of month m of year y. -/
def daysInMonth (y : Int) (m : Nat) : Nat :=
  if m = 2 then (if isLeapYear y then 29 else 28)
  else if m = 4 ∨ m = 6 ∨ m = 9 ∨ m = 11 then 30
  else 31

/-- The previous calendar day: the effect of the JS idiom
`d.setDate(d.getDate() - 1)` followed by `toISOString` on a valid date. -/
def Date.prevDay (d : Date) : Date :=
  if 1 < d.day then ⟨d.year, d.month, d.day - 1⟩
  else if 1 < d.month then ⟨d.year, d.month - 1, daysInMonth d.year (d.month - 1)⟩
  else ⟨d.year - 1, 12, 31⟩

/-- `String(m).padStart(2, "0")` for a natural number. -/
def pad2 (m : Nat) : String :=
  if m < 10 then "0" ++ toString m else toString m

/-- Renders a (year, month) pair as the `YYYY-MM` bucket key string,
exactly as EnergyAnalyzer.addBill builds it. -/
def keyString (p : Int × Nat) : String :=
  toString p.1 ++ "-" ++ pad2 p.2

/-- The month-shift heuristic of EnergyAnalyzer.addBill (src/EnergyAnalyzer.js
lines 15-25): decrement the month when the day of month is at most 20,
wrapping January back to December of the previous year. -/
def monthShift (y : Int) (m : Nat) (d : Nat) : Int × Nat :=
  if d ≤ 20 then
    let m1 := m - 1
    if m1 = 0 then (y - 1, 12) else (y, m1)
  else (y, m)

/-- The (year, month) pair of the bucket a record dated `dt` is assigned to. -/
def monthKeyPair (dt : Date) : Int × Nat :=
  monthShift dt.year dt.month dt.day

/-- The `YYYY-MM` bucket key string computed by EnergyAnalyzer.addBill. -/
def monthKey (dt : Date) : String :=
  keyString (monthKeyPair dt)

/-- A parsed bill record as fed to EnergyAnalyzer.addBill.  The JS records
are dynamic objects whose per-type-irrelevant numeric fields are absent
(and read back as 0 through the `x || 0` guards); here they default to 0. -/
structure BillData where
  type : String
  date : Date
  cost : ℚ := 0
  usage : ℚ := 0
  exported : ℚ := 0
  production : ℚ := 0
  credit : ℚ := 0
  therms : ℚ := 0
  startDate : Option Date := none
  endDate : Option Date := none
deriving DecidableEq, Repr

/-- A monthly accumulation bucket (src/EnergyAnalyzer.js lines 29-42). -/
structure MonthBucket where
  month : String
  ngStartDate : Option Date := none
  ngEndDate : Option Date := none
  ngCost : ℚ := 0
  ngUsage : ℚ := 0
  ngExport : ℚ := 0
  ngCredit : ℚ := 0
  ngProd : ℚ := 0
  sunrunCost : ℚ := 0
  sunrunProd : ℚ := 0
  gasCost : ℚ := 0
  gasTherms : ℚ := 0
deriving DecidableEq, Repr

/-- The freshly created bucket for key string `k`. -/
def emptyBucket (k : String) : MonthBucket := { month := k }

/-- The analyzer state: the monthlyData object (an association list in
object-insertion order keyed by the (year, month) pair behind the
`YYYY-MM` string) and the optional daily solar production map. -/
structure EnergyAnalyzer where
  monthlyData : List ((Int × Nat) × MonthBucket) := []
  dailySolarData : Option (List (Date × ℚ)) := none
deriving DecidableEq, Repr

/-- Property lookup in the monthlyData object. -/
def lookupBucket : List ((Int × Nat) × MonthBucket) → (Int × Nat) → Option MonthBucket
  | [], _ => none
  | (k1, b) :: rest, k => if k1 = k then some b else lookupBucket rest k

/-- Property write in the monthlyData object: overwrite in place, or
append a new key in insertion order. -/
def setBucket : List ((Int × Nat) × MonthBucket) → (Int × Nat) → MonthBucket →
    List ((Int × Nat) × MonthBucket)
  | [], k, b => [(k, b)]
  | (k1, b1) :: rest, k, b =>
    if k1 = k then (k, b) :: rest else (k1, b1) :: setBucket rest k b

/-- The per-type accumulation step of EnergyAnalyzer.addBill
(src/EnergyAnalyzer.js lines 47-67) applied to the looked-up bucket. -/
def applyToBucket (data : BillData) (b : MonthBucket) : MonthBucket :=
  if data.type = "NationalGrid" then
    { b with
      ngCost := b.ngCost + data.cost
      ngUsage := b.ngUsage + data.usage
      ngExport := b.ngExport + data.exported
      ngProd := b.ngProd + data.production
      ngCredit := if 0 < data.credit then data.credit else b.ngCredit
      ngStartDate := if data.startDate.isSome then data.startDate else b.ngStartDate
      ngEndDate := if data.endDate.isSome then data.endDate else b.ngEndDate }
  else if data.type = "Sunrun" then
    { b with
      sunrunCost := b.sunrunCost + data.cost
      sunrunProd := b.sunrunProd + data.production }
  else if data.type = "Eversource" then
    { b with
      gasCost := b.gasCost + data.cost
      gasTherms := b.gasTherms + data.therms }
  else b

/-- EnergyAnalyzer.addBill (src/EnergyAnalyzer.js lines 11-68): derive the
bucket key from the record's date, create the bucket if absent, then
accumulate the record's fields by source type. -/
def EnergyAnalyzer.addBill (st : EnergyAnalyzer) (data : BillData) : EnergyAnalyzer :=
  let key := monthKeyPair data.date
  let b0 := (lookupBucket st.monthlyData key).getD (emptyBucket (monthKey data.date))
  { st with monthlyData := setBucket st.monthlyData key (applyToBucket data b0) }

/-- EnergyAnalyzer.setDailySolarData. -/
def EnergyAnalyzer.setDailySolarData (st : EnergyAnalyzer) (dailyData : List (Date × ℚ)) :
    EnergyAnalyzer :=
  { st with dailySolarData := some dailyData }

/-- Folds a list of parsed bills into a fresh analyzer, as the
`ngData/sunrunData/gasData forEach addBill` loops of src/analyzeBills.js do. -/
def runBills (l : List BillData) : EnergyAnalyzer :=
  l.foldl EnergyAnalyzer.addBill {}

/-- JavaScript Math.round: round half toward positive infinity, i.e. the
floor of q + 1/2. -/
def jsRound (q : ℚ) : ℤ := ⌊q + 1 / 2⌋

/-- Sum of the daily production entries whose date lies in the inclusive
range from lo to hi (the ISO-string comparisons of src/EnergyAnalyzer.js
lines 110-114 on the date triples). -/
def sumDailyInRange (ds : List (Date × ℚ)) (lo hi : Date) : ℚ :=
  ((ds.filter fun p => Date.leb lo p.1 && Date.leb p.1 hi).map Prod.snd).sum

/-- Sum of the daily production entries whose ISO date string starts with
the `YYYY-MM` key, i.e. whose year and month match the bucket key
(src/EnergyAnalyzer.js lines 117-121). -/
def sumDailyInMonth (ds : List (Date × ℚ)) (k : Int × Nat) : ℚ :=
  ((ds.filter fun p => p.1.year == k.1 && p.1.month == k.2).map Prod.snd).sum

/-- The billingPeriodProd computation of EnergyAnalyzer.getMonthlyAnalysis
(src/EnergyAnalyzer.js lines 97-124): 0 without a daily series; with one,
the daily sum over the one-day-back-shifted billing period when both
bounds are present, else the daily sum over the bucket's own calendar
month, in both cases rounded to a whole number. -/
def billingPeriodProd (k : Int × Nat) (d : MonthBucket)
    (daily : Option (List (Date × ℚ))) : ℚ :=
  match daily with
  | none => 0
  | some ds =>
    match d.ngStartDate, d.ngEndDate with
    | some s, some e => ((jsRound (sumDailyInRange ds s.prevDay e.prevDay) : ℤ) : ℚ)
    | _, _ => ((jsRound (sumDailyInMonth ds k) : ℤ) : ℚ)

/-- One element of the array returned by getMonthlyAnalysis: the spread
bucket plus the derived metric fields. -/
structure MonthlySummary where
  data : MonthBucket
  totalProduction : ℚ
  selfUse : ℚ
  trueConsumption : ℚ
  netPosition : ℚ
  totalCost : ℚ
  effectiveRate : ℚ
  gasKwh : ℚ
  totalEnergyCost : ℚ
  totalEnergyKwh : ℚ
  billingPeriodProd : ℚ
deriving DecidableEq, Repr

/-- The body of the map in EnergyAnalyzer.getMonthlyAnalysis
(src/EnergyAnalyzer.js lines 87-165): the derived metrics of one bucket. -/
def computeMetrics (k : Int × Nat) (d : MonthBucket)
    (daily : Option (List (Date × ℚ))) : MonthlySummary :=
  let bpp := billingPeriodProd k d daily
  let totalProduction := if 0 < bpp then bpp
    else if 0 < d.ngProd then d.ngProd
    else d.sunrunProd
  let selfUse := max 0 (totalProduction - d.ngExport)
  let trueConsumption := selfUse + d.ngUsage
  let netPosition := totalProduction - trueConsumption
  let totalCost := d.ngCost + d.sunrunCost
  let effectiveRate := if 0 < trueConsumption then totalCost / trueConsumption else 0
  let gasKwh := d.gasTherms * (293 / 10)
  { data := d
    totalProduction := totalProduction
    selfUse := selfUse
    trueConsumption := trueConsumption
    netPosition := netPosition
    totalCost := totalCost
    effectiveRate := effectiveRate
    gasKwh := gasKwh
    totalEnergyCost := totalCost + d.gasCost
    totalEnergyKwh := trueConsumption + gasKwh
    billingPeriodProd := bpp }

/-- Ascending order on (year, month) bucket keys; for `YYYY-MM` strings of
equal width this is the JS default lexicographic string sort. -/
def keyLe (a b : Int × Nat) : Bool :=
  a.1 < b.1 || (a.1 == b.1 && a.2 ≤ b.2)

/-- Ordered insertion used to model `Object.keys(...).sort()`. -/
def insertKey (k : Int × Nat) : List (Int × Nat) → List (Int × Nat)
  | [] => [k]
  | x :: xs => if keyLe k x then k :: x :: xs else x :: insertKey k xs

/-- Insertion sort of the bucket keys. -/
def sortKeys : List (Int × Nat) → List (Int × Nat)
  | [] => []
  | x :: xs => insertKey x (sortKeys xs)

/-- EnergyAnalyzer.getMonthlyAnalysis (src/EnergyAnalyzer.js lines 84-166):
sort the bucket keys ascending and map each bucket to its metrics. -/
def EnergyAnalyzer.getMonthlyAnalysis (st : EnergyAnalyzer) : List MonthlySummary :=
  (sortKeys (st.monthlyData.map Prod.fst)).map fun k =>
    computeMetrics k ((lookupBucket st.monthlyData k).getD (emptyBucket (keyString k)))
      st.dailySolarData

/-!
## The field extractors

The regex-matching phase of each parser is abstracted as a capture
structure: one optional component per regex of the source, holding the
already-numeric (separator-stripped, parseFloat-ed) content of its capture
groups.  The embedded parse functions translate everything the source
does after its match calls.
-/

/-- The match results of the seven regexes of NationalGridParser.parse
(src/unnamed/part_003; the same patterns appear in
BillParser.parseNationalGrid). -/
structure NGCapture where
  billingPeriod : Option (Date × Date) := none
  billingPeriodEndOnly : Option Date := none
  currentCharges : Option ℚ := none
  totalDue : Option ℚ := none
  netUsage : Option ℚ := none
  genUsage : Option ℚ := none
  creditBalance : Option ℚ := none
deriving DecidableEq, Repr

/-- The record object built by NationalGridParser.parse
(src/unnamed/part_003 lines 85-95). -/
structure NGRecord where
  date : Option Date
  startDate : Option Date
  endDate : Option Date
  usage : ℚ
  exported : ℚ
  production : ℚ
  cost : ℚ
  credit : ℚ
deriving DecidableEq, Repr

/-- NationalGridParser.parse (src/unnamed/part_003 lines 10-102) after a
successful text extraction: `none` models the JS `null` result (which the
source only produces from its catch block).  Note the returned object's
date field is `dateStr`, which is still null when neither billing-period
regex matched: the function builds and returns the record without any
null-date guard.  (The BillParser.js variant, lines 84-98, has such a
guard but only after its unconditional return statement, where it is
unreachable.) -/
def NationalGridParser.parse (c : NGCapture) : Option NGRecord :=
  let dse : Option Date × Option Date × Option Date :=
    match c.billingPeriod with
    | some (s, e) => (some e, some s, some e)
    | none =>
      match c.billingPeriodEndOnly with
      | some e => (some e, none, some e)
      | none => (none, none, none)
  let cost : ℚ :=
    match c.currentCharges with
    | some v => v
    | none => c.totalDue.getD 0
  let netUsage : ℚ := c.netUsage.getD 0
  let genUsage : ℚ :=
    match c.genUsage with
    | some v => |v|
    | none => 0
  let usage : ℚ := if 0 < netUsage then netUsage else 0
  let exported : ℚ := if netUsage < 0 then |netUsage| else 0
  let credit : ℚ := c.creditBalance.getD 0
  some
    { date := dse.1
      startDate := dse.2.1
      endDate := dse.2.2
      usage := usage
      exported := exported
      production := genUsage
      cost := cost
      credit := credit }

/-- Month-abbreviation table of SunrunParser.parse (the JS monthMap whose
values are the zero-padded month strings); a miss models the JS
`undefined` lookup result. -/
def monthNum : String → Option Nat
  | "Jan" => some 1
  | "Feb" => some 2
  | "Mar" => some 3
  | "Apr" => some 4
  | "May" => some 5
  | "Jun" => some 6
  | "Jul" => some 7
  | "Aug" => some 8
  | "Sep" => some 9
  | "Oct" => some 10
  | "Nov" => some 11
  | "Dec" => some 12
  | _ => none

/-- The match results of the regexes of SunrunParser.parse
(src/unnamed/part_004; identical logic in BillParser.parseSunrun).
The three date captures are (month, day, year) from `MM/DD/YYYY` for the
due date and bill date, and (month abbreviation, day) from the
`Billing Period Mon DD - Mon DD` range end. -/
structure SunrunCapture where
  dueDate : Option (Nat × Nat × Int) := none
  billingEnd : Option (String × Nat) := none
  billDate : Option (Nat × Nat × Int) := none
  totalDue : Option ℚ := none
  monthlyCharge : Option ℚ := none
  production : Option ℚ := none
deriving DecidableEq, Repr

/-- The record built by SunrunParser.parse.  The date is the (year,
month, day) content of the `${year}-${m}-${d}` string the source builds;
the month is `none` when the billing-period month abbreviation missed the
monthMap (the source then renders the string "undefined"). -/
structure SunrunRecord where
  date : Int × Option Nat × Nat
  production : ℚ
  cost : ℚ
deriving DecidableEq, Repr

/-- SunrunParser.parse (src/unnamed/part_004 lines 10-92, equivalently
BillParser.parseSunrun lines 115-219).  `currentYear` models
`new Date().getFullYear()`, the due-year default when no due date
matched.  Returns `none` exactly when no date string could be built. -/
def SunrunParser.parse (currentYear : Int) (c : SunrunCapture) : Option SunrunRecord :=
  let dueYear : Int :=
    match c.dueDate with
    | some (_, _, y) => y
    | none => currentYear
  let dateOpt : Option (Int × Option Nat × Nat) :=
    match c.billingEnd with
    | some (monthStr, day) =>
      let dueMonth : Nat :=
        match c.dueDate with
        | some (m, _, _) => m
        | none => 1
      let year := if monthStr = "Dec" ∧ dueMonth = 1 then dueYear - 1 else dueYear
      some (year, monthNum monthStr, day)
    | none =>
      match c.dueDate with
      | some (dm, dd, dy) =>
        match c.billDate with
        | some (bm, bd, byr) => some (byr, some bm, bd)
        | none => some (dy, some dm, dd)
      | none => none
  let cost : ℚ :=
    match c.totalDue with
    | some v => v
    | none => c.monthlyCharge.getD 0
  let production : ℚ := c.production.getD 0
  match dateOpt with
  | none => none
  | some dt => some { date := dt, production := production, cost := cost }

/-!
## Specification-side definitions

These are written from the specification's words and compared against the
embedded code.
-/

/-- Spec 4.2 month assignment: a record's bucket is its own calendar
month, shifted back one month if its day-of-month is at most 20, with
January wrapping to December of the previous year. -/
def specMonthPair (dt : Date) : Int × Nat :=
  if dt.day ≤ 20 then
    if dt.month = 1 then (dt.year - 1, 12) else (dt.year, dt.month - 1)
  else (dt.year, dt.month)

/-!
## Helper lemmas about the monthlyData object
-/

lemma lookupBucket_setBucket_self (l : List ((Int × Nat) × MonthBucket))
    (k : Int × Nat) (b : MonthBucket) :
    lookupBucket (setBucket l k b) k = some b := by
  induction l with
  | nil => simp [setBucket, lookupBucket]
  | cons hd tl ih =>
    obtain ⟨k1, b1⟩ := hd
    by_cases h : k1 = k
    · simp [setBucket, h, lookupBucket]
    · simp [setBucket, h, lookupBucket, ih]

lemma lookupBucket_setBucket_ne (l : List ((Int × Nat) × MonthBucket))
    (k k1 : Int × Nat) (b : MonthBucket) (h : k1 ≠ k) :
    lookupBucket (setBucket l k b) k1 = lookupBucket l k1 := by
  have h1 : ¬k = k1 := fun hh => h hh.symm
  induction l with
  | nil => simp [setBucket, lookupBucket, h1]
  | cons hd tl ih =>
    obtain ⟨k2, b2⟩ := hd
    by_cases h2 : k2 = k
    · subst h2
      simp [setBucket, lookupBucket, h1]
    · simp [setBucket, h2, lookupBucket, ih]

/-- addBill writes the bucket at the record's own month key: the previous
bucket (or a fresh one) with the record's fields accumulated. -/
lemma addBill_lookup_self (st : EnergyAnalyzer) (r : BillData) :
    lookupBucket (st.addBill r).monthlyData (monthKeyPair r.date) =
      some (applyToBucket r ((lookupBucket st.monthlyData (monthKeyPair r.date)).getD
        (emptyBucket (monthKey r.date)))) := by
  simp [EnergyAnalyzer.addBill, lookupBucket_setBucket_self]

/-- addBill leaves every other key of monthlyData unchanged. -/
lemma addBill_lookup_ne (st : EnergyAnalyzer) (r : BillData) (k : Int × Nat)
    (h : k ≠ monthKeyPair r.date) :
    lookupBucket (st.addBill r).monthlyData k = lookupBucket st.monthlyData k := by
  simp [EnergyAnalyzer.addBill, lookupBucket_setBucket_ne _ _ _ _ h]

/-- The accumulation step never rewrites the bucket's stored month key. -/
lemma applyToBucket_month (r : BillData) (b : MonthBucket) :
    (applyToBucket r b).month = b.month := by
  unfold applyToBucket
  split_ifs <;> rfl

lemma totalProduction_eq (k : Int × Nat) (d : MonthBucket)
    (daily : Option (List (Date × ℚ))) :
    (computeMetrics k d daily).totalProduction =
      if 0 < billingPeriodProd k d daily then billingPeriodProd k d daily
      else if 0 < d.ngProd then d.ngProd
      else d.sunrunProd := rfl

lemma selfUse_eq (k : Int × Nat) (d : MonthBucket)
    (daily : Option (List (Date × ℚ))) :
    (computeMetrics k d daily).selfUse =
      max 0 ((computeMetrics k d daily).totalProduction - d.ngExport) := rfl

/-!
## Claims
-/

/-- Claim C1: the claim states that every record returned by the National
Grid parser has a non-null date and that the parser returns null when no
billing-period end date matches.  The code does the opposite: when
neither billing-period regex matches, NationalGridParser.parse still
returns a record object whose date field is null (the BillParser.js
variant's null-date guard sits after its unconditional return statement
and is unreachable).  This theorem evaluates the embedded parser at such
inputs: a record is produced and its date is null. -/
theorem claim1_ng_no_date_partial_record (c : NGCapture)
    (h1 : c.billingPeriod = none) (h2 : c.billingPeriodEndOnly = none) :
    (NationalGridParser.parse c).map NGRecord.date = some none := by
  simp [NationalGridParser.parse, h1, h2]

/-- A National Grid bill text in which no billing-period date matches
(all regex captures empty except a net usage figure). -/
def ngNoDateCapture : NGCapture := { netUsage := some 120 }

/-- Witness for claim C1 at a concrete capture with no date match. -/
theorem claim1_witness :
    ngNoDateCapture.billingPeriod = none ∧
    ngNoDateCapture.billingPeriodEndOnly = none ∧
    (NationalGridParser.parse ngNoDateCapture).map NGRecord.date = some none :=
  ⟨rfl, rfl, claim1_ng_no_date_partial_record ngNoDateCapture rfl rfl⟩

/-- A National Grid record dated on day 20 of March 2024. -/
def march20Bill : BillData :=
  { type := "NationalGrid", date := ⟨2024, 3, 20⟩, cost := 100, usage := 250 }

/-- Claim C2 counterexample: the claim says a record dated day 20 of
month M is assigned to bucket M, but feeding a bill dated 2024-03-20 to
addBill creates no bucket for 2024-03; the record lands in 2024-02. -/
theorem claim2_counterexample :
    lookupBucket (runBills [march20Bill]).monthlyData (2024, 3) = none ∧
    (lookupBucket (runBills [march20Bill]).monthlyData (2024, 2)).isSome = true := by
  decide

/-- Claim C2 (amended): a record dated day 20 of month M is assigned to
bucket M - 1 (December of the prior year when M is January); a record
dated day 21 of month M is assigned to bucket M itself; a record dated
January 1 is assigned to December of the prior year. -/
theorem claim2_month_assignment (y : Int) (m : Nat) (st : EnergyAnalyzer) (t : String)
    (h1 : 1 ≤ m) (h2 : m ≤ 12) :
    monthKeyPair ⟨y, m, 20⟩ = (if m = 1 then (y - 1, 12) else (y, m - 1)) ∧
    monthKeyPair ⟨y, m, 21⟩ = (y, m) ∧
    monthKeyPair ⟨y, 1, 1⟩ = (y - 1, 12) ∧
    (lookupBucket (st.addBill { type := t, date := ⟨y, m, 21⟩ }).monthlyData
      (y, m)).isSome = true := by
  refine ⟨?_, ?_, ?_, ?_⟩
  · unfold monthKeyPair monthShift
    by_cases hm1 : m = 1
    · simp [hm1]
    · have hne : m - 1 ≠ 0 := by omega
      simp [hm1, hne]
  · unfold monthKeyPair monthShift
    norm_num
  · unfold monthKeyPair monthShift
    norm_num
  · have hkey : monthKeyPair (⟨y, m, 21⟩ : Date) = (y, m) := by
      unfold monthKeyPair monthShift
      norm_num
    have h := addBill_lookup_self st { type := t, date := ⟨y, m, 21⟩ }
    rw [show ({ type := t, date := ⟨y, m, 21⟩ } : BillData).date = (⟨y, m, 21⟩ : Date)
      from rfl, hkey] at h
    rw [h]
    rfl

/-- Witness for claim C2 (amended) at May 2024. -/
theorem claim2_witness :
    (1 ≤ 5 ∧ 5 ≤ 12) ∧
    (monthKeyPair ⟨2024, 5, 20⟩ = (if 5 = 1 then ((2024 : Int) - 1, 12) else (2024, 5 - 1)) ∧
     monthKeyPair ⟨2024, 5, 21⟩ = (2024, 5) ∧
     monthKeyPair ⟨2024, 1, 1⟩ = ((2024 : Int) - 1, 12) ∧
     (lookupBucket (EnergyAnalyzer.addBill {} { type := "Sunrun", date := ⟨2024, 5, 21⟩ }).monthlyData
       (2024, 5)).isSome = true) :=
  ⟨⟨by decide, by decide⟩,
    claim2_month_assignment 2024 5 {} "Sunrun" (by decide) (by decide)⟩

/-- Claim C3: the bucket key is the record's own calendar month shifted
back one month exactly when the day-of-month is at most 20 (January
wrapping to December of the prior year), formatted as a `YYYY-MM` key;
the rule is the same function of the date for every record (addBill can
only touch the bucket at that key, whatever the source type), and the key
is computed once at insertion: accumulation never rewrites the stored
month key and getMonthlyAnalysis carries the bucket into the summary
unchanged. -/
theorem claim3_bucket_key_uniform (dt : Date) (st : EnergyAnalyzer) (r : BillData)
    (k : Int × Nat) (hm : 1 ≤ dt.month) (hk : k ≠ monthKeyPair r.date) :
    monthKeyPair dt = specMonthPair dt ∧
    monthKey dt = keyString (specMonthPair dt) ∧
    lookupBucket (st.addBill r).monthlyData k = lookupBucket st.monthlyData k ∧
    lookupBucket (st.addBill r).monthlyData (monthKeyPair r.date) =
      some (applyToBucket r ((lookupBucket st.monthlyData (monthKeyPair r.date)).getD
        (emptyBucket (monthKey r.date)))) ∧
    (∀ b : MonthBucket, (applyToBucket r b).month = b.month) ∧
    (∀ k1 d daily, (computeMetrics k1 d daily).data = d) := by
  have hpair : monthKeyPair dt = specMonthPair dt := by
    unfold monthKeyPair monthShift specMonthPair
    by_cases hd : dt.day ≤ 20
    · by_cases hm1 : dt.month = 1
      · simp [hd, hm1]
      · have hne : dt.month - 1 ≠ 0 := by omega
        simp [hd, hm1, hne]
    · simp [hd]
  refine ⟨hpair, ?_, addBill_lookup_ne st r k hk, addBill_lookup_self st r,
    fun b => applyToBucket_month r b, fun _ _ _ => rfl⟩
  unfold monthKey
  rw [hpair]

/-- Witness for claim C3 at a concrete date, state and record. -/
theorem claim3_witness :
    ((1 : Nat) ≤ 7 ∧ ((1999 : Int), (1 : Nat)) ≠ monthKeyPair march20Bill.date) ∧
    (monthKeyPair ⟨2024, 7, 5⟩ = specMonthPair ⟨2024, 7, 5⟩ ∧
     monthKey ⟨2024, 7, 5⟩ = keyString (specMonthPair ⟨2024, 7, 5⟩) ∧
     lookupBucket (EnergyAnalyzer.addBill {} march20Bill).monthlyData (1999, 1) =
       lookupBucket ({} : EnergyAnalyzer).monthlyData (1999, 1) ∧
     lookupBucket (EnergyAnalyzer.addBill {} march20Bill).monthlyData
       (monthKeyPair march20Bill.date) =
       some (applyToBucket march20Bill
         ((lookupBucket ({} : EnergyAnalyzer).monthlyData (monthKeyPair march20Bill.date)).getD
           (emptyBucket (monthKey march20Bill.date)))) ∧
     (∀ b : MonthBucket, (applyToBucket march20Bill b).month = b.month) ∧
     (∀ k1 d daily, (computeMetrics k1 d daily).data = d)) :=
  ⟨⟨by decide, by decide⟩,
    claim3_bucket_key_uniform ⟨2024, 7, 5⟩ {} march20Bill (1999, 1) (by decide) (by decide)⟩

/-- Claim C8: effectiveRate is totalCost divided by trueConsumption when
trueConsumption is positive and 0 otherwise; totalCost and
trueConsumption are the guarded inputs of that division, so the metrics
computation never divides by a zero trueConsumption. -/
theorem claim8_effective_rate_guarded (k : Int × Nat) (d : MonthBucket)
    (daily : Option (List (Date × ℚ))) :
    (computeMetrics k d daily).effectiveRate =
      (if 0 < (computeMetrics k d daily).trueConsumption then
        (computeMetrics k d daily).totalCost / (computeMetrics k d daily).trueConsumption
      else 0) ∧
    (computeMetrics k d daily).totalCost = d.ngCost + d.sunrunCost ∧
    (computeMetrics k d daily).trueConsumption =
      (computeMetrics k d daily).selfUse + d.ngUsage := ⟨rfl, rfl, rfl⟩

/-- Claim C6: selfUse equals max 0 (totalProduction minus the bucket's
accumulated export sum), hence is never negative and never exceeds
totalProduction.  The accumulated export and solar-production sums are
nonnegative for every bucket built from parsed records (the parsers only
produce nonnegative exported/production fields), which the two
nonnegativity hypotheses record. -/
theorem claim6_self_use_bounds (k : Int × Nat) (d : MonthBucket)
    (daily : Option (List (Date × ℚ)))
    (hex : 0 ≤ d.ngExport) (hsp : 0 ≤ d.sunrunProd) :
    (computeMetrics k d daily).selfUse =
      max 0 ((computeMetrics k d daily).totalProduction - d.ngExport) ∧
    0 ≤ (computeMetrics k d daily).selfUse ∧
    (computeMetrics k d daily).selfUse ≤ (computeMetrics k d daily).totalProduction := by
  have htp : 0 ≤ (computeMetrics k d daily).totalProduction := by
    rw [totalProduction_eq]
    split_ifs with hb hp
    · linarith
    · linarith
    · exact hsp
  refine ⟨rfl, ?_, ?_⟩
  · rw [selfUse_eq]
    exact le_max_left 0 _
  · rw [selfUse_eq]
    exact max_le htp (sub_le_self _ hex)

/-- Witness for claim C6 at a concrete bucket. -/
theorem claim6_witness :
    ((0 : ℚ) ≤ 300 ∧ (0 : ℚ) ≤ 25) ∧
    ((computeMetrics (2024, 5) { month := "2024-05", ngExport := 300, sunrunProd := 25 }
        none).selfUse =
      max 0 ((computeMetrics (2024, 5) { month := "2024-05", ngExport := 300, sunrunProd := 25 }
        none).totalProduction - 300) ∧
     0 ≤ (computeMetrics (2024, 5) { month := "2024-05", ngExport := 300, sunrunProd := 25 }
        none).selfUse ∧
     (computeMetrics (2024, 5) { month := "2024-05", ngExport := 300, sunrunProd := 25 }
        none).selfUse ≤
       (computeMetrics (2024, 5) { month := "2024-05", ngExport := 300, sunrunProd := 25 }
        none).totalProduction) :=
  ⟨⟨by norm_num, by norm_num⟩,
    claim6_self_use_bounds (2024, 5)
      { month := "2024-05", ngExport := 300, sunrunProd := 25 } none
      (by norm_num) (by norm_num)⟩

/-- Claim C7: the National Grid parser derives the import and export
fields from the single signed net-usage figure, so they are never both
positive in one record. -/
theorem claim7_import_export_exclusive (c : NGCapture) (r : NGRecord)
    (h : NationalGridParser.parse c = some r) :
    ¬(0 < r.usage ∧ 0 < r.exported) := by
  simp only [NationalGridParser.parse, Option.some.injEq] at h
  rintro ⟨hu, he⟩
  subst h
  simp only at hu he
  by_cases h0 : 0 < c.netUsage.getD 0
  · rw [if_neg (by linarith : ¬c.netUsage.getD 0 < 0)] at he
    exact absurd he (lt_irrefl 0)
  · rw [if_neg h0] at hu
    exact absurd hu (lt_irrefl 0)

/-- Spec 4.2 step 1, totalProduction selection priority, written from the
specification's wording: (a) with a daily series and both period bounds,
the rounded daily sum over the inclusive window from one day before the
period start to one day before the period end; (b) with a daily series
but a missing bound, the rounded daily sum over the bucket's own calendar
month; (c) if that candidate is positive it wins; (d) else the
accumulated meter production if positive; (e) else the accumulated
solar-inverter production. -/
def totalProductionSpec (k : Int × Nat) (d : MonthBucket)
    (daily : Option (List (Date × ℚ))) : ℚ :=
  let windowSum : Option ℚ :=
    match daily, d.ngStartDate, d.ngEndDate with
    | some ds, some s, some e =>
      some ((jsRound (sumDailyInRange ds s.prevDay e.prevDay) : ℤ) : ℚ)
    | _, _, _ => none
  let monthSum : Option ℚ :=
    match daily, d.ngStartDate, d.ngEndDate with
    | some _, some _, some _ => none
    | some ds, _, _ => some ((jsRound (sumDailyInMonth ds k) : ℤ) : ℚ)
    | none, _, _ => none
  let series : ℚ := (windowSum.orElse fun _ => monthSum).getD 0
  if 0 < series then series
  else if 0 < d.ngProd then d.ngProd
  else d.sunrunProd

/-- The spec's production-priority example bucket: meter production 500,
solar-inverter production 300, billing period 2024-05-15 to 2024-06-14. -/
def exampleBucket : MonthBucket :=
  { month := "2024-05", ngStartDate := some ⟨2024, 5, 15⟩,
    ngEndDate := some ⟨2024, 6, 14⟩, ngProd := 500, sunrunProd := 300 }

/-- A daily series summing to 450 inside the shifted window
2024-05-14 .. 2024-06-13. -/
def exampleDaily : List (Date × ℚ) :=
  [(⟨2024, 5, 14⟩, 200), (⟨2024, 6, 13⟩, 250)]

/-- Claim C4: getMonthlyAnalysis selects totalProduction by the
specification's priority (shifted-window daily sum, else calendar-month
daily sum, if positive; else positive meter production; else inverter
production), and on the spec's worked example (meter 500, inverter 300,
daily series summing to 450 over the shifted window) it yields 450. -/
theorem claim4_total_production_priority :
    (∀ (k : Int × Nat) (d : MonthBucket) (daily : Option (List (Date × ℚ))),
      (computeMetrics k d daily).totalProduction = totalProductionSpec k d daily) ∧
    (computeMetrics (2024, 5) exampleBucket (some exampleDaily)).totalProduction = 450 := by
  constructor
  · intro k d daily
    rw [totalProduction_eq]
    unfold totalProductionSpec billingPeriodProd
    cases daily with
    | none => simp
    | some ds =>
      cases hs : d.ngStartDate with
      | none => cases he : d.ngEndDate <;> simp
      | some s => cases he : d.ngEndDate <;> simp
  · have hsum : sumDailyInRange exampleDaily
        (Date.prevDay ⟨2024, 5, 15⟩) (Date.prevDay ⟨2024, 6, 14⟩) = 450 := by
      norm_num [sumDailyInRange, exampleDaily, Date.prevDay, Date.leb, List.filter]
    have hbpp : billingPeriodProd (2024, 5) exampleBucket (some exampleDaily) = 450 := by
      show ((jsRound (sumDailyInRange exampleDaily
        (Date.prevDay ⟨2024, 5, 15⟩) (Date.prevDay ⟨2024, 6, 14⟩)) : ℤ) : ℚ) = 450
      rw [hsum]
      have : jsRound 450 = 450 := by
        rw [jsRound, Int.floor_eq_iff]
        norm_num
      rw [this]
      norm_num
    rw [totalProduction_eq, hbpp]
    norm_num

/-- Spec-side Sunrun date selection, written from the (amended) claim:
with a billing-period range, the billing year is the due-date year
(anchored to the current year when no due date matched, its month treated
as January), minus one exactly when the period end month is December and
the anchor month is January; without a billing-period range the parser
requires a due date, preferring a distinct bill-date field over the due
date itself, and yields no date when no due date matched. -/
def sunrunDateSpec (currentYear : Int) (c : SunrunCapture) :
    Option (Int × Option Nat × Nat) :=
  match c.billingEnd, c.dueDate, c.billDate with
  | some (ms, dday), due, _ =>
    let anchorYear : Int :=
      match due with
      | some (_, _, yy) => yy
      | none => currentYear
    let anchorMonth : Nat :=
      match due with
      | some (mm, _, _) => mm
      | none => 1
    some (if ms = "Dec" ∧ anchorMonth = 1 then anchorYear - 1 else anchorYear,
      monthNum ms, dday)
  | none, some _, some (bm, bd, byr) => some (byr, some bm, bd)
  | none, some (dm, dd, dy), none => some (dy, some dm, dd)
  | none, none, _ => none

/-- A Sunrun bill text with a bill date but neither a billing-period
range nor a due date. -/
def sunrunBillDateOnly : SunrunCapture :=
  { billDate := some (7, 15, 2024), totalDue := some 100 }

/-- Claim C5 counterexample: the claim says that with no billing-period
range the parser falls back first to a bill-date field if present; but
the bill-date fallback only runs when a due date was also found, so on a
text carrying only a bill date the parser returns null instead of a
record dated from the bill date. -/
theorem claim5_counterexample :
    sunrunBillDateOnly.billingEnd = none ∧
    sunrunBillDateOnly.dueDate = none ∧
    sunrunBillDateOnly.billDate = some (7, 15, 2024) ∧
    SunrunParser.parse 2025 sunrunBillDateOnly = none := by
  decide

/-- Claim C5 (amended): with a billing-period range, the record's year is
the due-date year minus 1 exactly when the period end month is December
and the due-date month is January, and the due-date year otherwise (the
current system year, with month treated as January, standing in when no
due date matched); with no billing-period range the parser falls back to
the bill-date field and then the due date only when a due date was
found, and returns null otherwise, even if a bill date is present. -/
theorem claim5_sunrun_date (cy : Int) (c : SunrunCapture) :
    (SunrunParser.parse cy c).map SunrunRecord.date = sunrunDateSpec cy c := by
  unfold SunrunParser.parse sunrunDateSpec
  rcases hb : c.billingEnd with _ | ⟨ms, dday⟩ <;>
    rcases hd : c.dueDate with _ | ⟨dm, dd, dy⟩ <;>
      rcases hbd : c.billDate with _ | ⟨bm, bd, byr⟩ <;>
        simp

/-- The eight summed fields of a bucket, in source order: ngCost,
ngUsage, ngExport, ngProd, sunrunCost, sunrunProd, gasCost, gasTherms. -/
def summedFields (b : MonthBucket) : ℚ × ℚ × ℚ × ℚ × ℚ × ℚ × ℚ × ℚ :=
  (b.ngCost, b.ngUsage, b.ngExport, b.ngProd, b.sunrunCost, b.sunrunProd,
    b.gasCost, b.gasTherms)

/-- The contribution of one record to the summed fields of its bucket,
read off the three accumulation branches of addBill. -/
def contrib (r : BillData) : ℚ × ℚ × ℚ × ℚ × ℚ × ℚ × ℚ × ℚ :=
  if r.type = "NationalGrid" then (r.cost, r.usage, r.exported, r.production, 0, 0, 0, 0)
  else if r.type = "Sunrun" then (0, 0, 0, 0, r.cost, r.production, 0, 0)
  else if r.type = "Eversource" then (0, 0, 0, 0, 0, 0, r.cost, r.therms)
  else 0

/-- The contribution of a record to the bucket keyed k. -/
def keyedContrib (k : Int × Nat) (r : BillData) : ℚ × ℚ × ℚ × ℚ × ℚ × ℚ × ℚ × ℚ :=
  if monthKeyPair r.date = k then contrib r else 0

/-- The summed fields bucket k should hold after accumulating the list l:
the sum of the per-record contributions keyed to k. -/
def bucketSums (l : List BillData) (k : Int × Nat) : ℚ × ℚ × ℚ × ℚ × ℚ × ℚ × ℚ × ℚ :=
  (l.map (keyedContrib k)).sum

lemma summedFields_applyToBucket (r : BillData) (b : MonthBucket) :
    summedFields (applyToBucket r b) = summedFields b + contrib r := by
  unfold applyToBucket contrib summedFields
  split_ifs <;> simp [Prod.ext_iff]

lemma summedFields_emptyBucket (s : String) : summedFields (emptyBucket s) = 0 := rfl

lemma bucketSums_nil (k : Int × Nat) : bucketSums [] k = 0 := rfl

lemma bucketSums_append_singleton (l : List BillData) (r : BillData) (k : Int × Nat) :
    bucketSums (l ++ [r]) k = bucketSums l k + keyedContrib k r := by
  unfold bucketSums
  simp

/-- The whole-run accumulation invariant: after folding a list of
records, bucket k exists exactly when some record keys to it, and then
its summed fields are the sum of the contributions keyed to k. -/
lemma runBills_lookup (l : List BillData) (k : Int × Nat) :
    (lookupBucket (runBills l).monthlyData k).map summedFields =
      if 0 < l.countP (fun r => decide (monthKeyPair r.date = k)) then some (bucketSums l k)
      else none := by
  induction l using List.reverseRecOn with
  | nil => simp [runBills, lookupBucket]
  | append_singleton l r ih =>
    have hrun : runBills (l ++ [r]) = (runBills l).addBill r := by
      simp [runBills, List.foldl_append]
    rw [hrun]
    by_cases hk : monthKeyPair r.date = k
    · subst hk
      rw [addBill_lookup_self]
      rw [List.countP_append, bucketSums_append_singleton]
      simp only [List.countP_cons, List.countP_nil, decide_eq_true_eq, eq_self_iff_true,
        if_true, Nat.zero_add, Nat.add_zero]
      rw [if_pos (by omega)]
      cases hl : lookupBucket (runBills l).monthlyData (monthKeyPair r.date) with
      | none =>
        rw [hl] at ih
        have hcnt : l.countP (fun r1 => decide (monthKeyPair r1.date = monthKeyPair r.date)) = 0 := by
          by_contra hne
          rw [if_pos (Nat.pos_of_ne_zero hne)] at ih
          exact Option.noConfusion ih
        have hsum : bucketSums l (monthKeyPair r.date) = 0 := by
          unfold bucketSums
          apply List.sum_eq_zero
          intro x hx
          obtain ⟨r1, hr1, rfl⟩ := List.mem_map.mp hx
          have hno := List.countP_eq_zero.mp hcnt r1 hr1
          simp only [decide_eq_true_eq] at hno
          simp [keyedContrib, hno]
        rw [hsum]
        simp [summedFields_applyToBucket, summedFields_emptyBucket, keyedContrib]
      | some b =>
        rw [hl] at ih
        have hcond :
            0 < l.countP (fun r1 => decide (monthKeyPair r1.date = monthKeyPair r.date)) := by
          by_contra hno
          rw [if_neg hno] at ih
          exact Option.noConfusion ih
        rw [if_pos hcond] at ih
        have hsf : summedFields b = bucketSums l (monthKeyPair r.date) := by
          simpa using ih
        simp [summedFields_applyToBucket, hsf, keyedContrib]
    · rw [addBill_lookup_ne _ _ _ (Ne.symm hk), ih,
        List.countP_append, bucketSums_append_singleton]
      simp [hk, keyedContrib]

/-- Claim C9: the summed fields of every bucket are independent of the
order in which the records are fed to addBill: folding two permutations
of the same record list from the empty analyzer yields, at every bucket
key, the same ngCost, ngUsage, ngExport, ngProd, sunrunCost, sunrunProd,
gasCost and gasTherms sums (only credit balance and period bounds are
last-write-wins and escape this statement). -/
theorem claim9_order_independent (l1 l2 : List BillData) (k : Int × Nat)
    (h : l1.Perm l2) :
    (lookupBucket (runBills l1).monthlyData k).map summedFields =
      (lookupBucket (runBills l2).monthlyData k).map summedFields := by
  rw [runBills_lookup, runBills_lookup, h.countP_eq,
    show bucketSums l1 k = bucketSums l2 k from (h.map (keyedContrib k)).sum_eq]

/-- A National Grid record for the order-independence witness. -/
def recA : BillData :=
  { type := "NationalGrid", date := ⟨2024, 5, 2⟩, cost := 10, usage := 100 }

/-- A Sunrun record for the order-independence witness. -/
def recB : BillData :=
  { type := "Sunrun", date := ⟨2024, 5, 3⟩, cost := 20, production := 400 }

/-- Witness for claim C9 at a concrete two-record swap. -/
theorem claim9_witness :
    ([recA, recB].Perm [recB, recA]) ∧
    (lookupBucket (runBills [recA, recB]).monthlyData (2024, 4)).map summedFields =
      (lookupBucket (runBills [recB, recA]).monthlyData (2024, 4)).map summedFields :=
  ⟨List.Perm.swap recB recA [],
    claim9_order_independent [recA, recB] [recB, recA] (2024, 4)
      (List.Perm.swap recB recA [])⟩

/-- The frame property of the touched bucket, by source type: a
NationalGrid record leaves the sunrun and gas fields of its bucket
unchanged, a Sunrun record leaves the ng and gas fields unchanged, an
Eversource record leaves the ng and sunrun fields unchanged, and a
record of any other type leaves the bucket entirely unchanged. -/
def untouchedBy (r : BillData) (old nb : MonthBucket) : Prop :=
  if r.type = "NationalGrid" then
    nb.sunrunCost = old.sunrunCost ∧ nb.sunrunProd = old.sunrunProd ∧
    nb.gasCost = old.gasCost ∧ nb.gasTherms = old.gasTherms
  else if r.type = "Sunrun" then
    nb.ngCost = old.ngCost ∧ nb.ngUsage = old.ngUsage ∧ nb.ngExport = old.ngExport ∧
    nb.ngCredit = old.ngCredit ∧ nb.ngProd = old.ngProd ∧
    nb.ngStartDate = old.ngStartDate ∧ nb.ngEndDate = old.ngEndDate ∧
    nb.gasCost = old.gasCost ∧ nb.gasTherms = old.gasTherms
  else if r.type = "Eversource" then
    nb.ngCost = old.ngCost ∧ nb.ngUsage = old.ngUsage ∧ nb.ngExport = old.ngExport ∧
    nb.ngCredit = old.ngCredit ∧ nb.ngProd = old.ngProd ∧
    nb.ngStartDate = old.ngStartDate ∧ nb.ngEndDate = old.ngEndDate ∧
    nb.sunrunCost = old.sunrunCost ∧ nb.sunrunProd = old.sunrunProd
  else nb = old

lemma untouchedBy_applyToBucket (r : BillData) (b : MonthBucket) :
    untouchedBy r b (applyToBucket r b) := by
  unfold untouchedBy applyToBucket
  split_ifs <;> simp

/-- Claim C10: addBill modifies at most the one bucket keyed by the
record's date, leaves the daily-production mapping unchanged, and within
the touched bucket only the fields of the record's own source type
change. -/
theorem claim10_frame (st : EnergyAnalyzer) (r : BillData) (k : Int × Nat)
    (hk : k ≠ monthKeyPair r.date) :
    lookupBucket (st.addBill r).monthlyData k = lookupBucket st.monthlyData k ∧
    (st.addBill r).dailySolarData = st.dailySolarData ∧
    lookupBucket (st.addBill r).monthlyData (monthKeyPair r.date) =
      some (applyToBucket r ((lookupBucket st.monthlyData (monthKeyPair r.date)).getD
        (emptyBucket (monthKey r.date)))) ∧
    untouchedBy r
      ((lookupBucket st.monthlyData (monthKeyPair r.date)).getD (emptyBucket (monthKey r.date)))
      (applyToBucket r
        ((lookupBucket st.monthlyData (monthKeyPair r.date)).getD
          (emptyBucket (monthKey r.date)))) :=
  ⟨addBill_lookup_ne st r k hk, rfl, addBill_lookup_self st r,
    untouchedBy_applyToBucket r _⟩

/-- Witness for claim C10 at a concrete state, record and distant key. -/
theorem claim10_witness :
    ((2000, 1) ≠ monthKeyPair recB.date) ∧
    (lookupBucket (EnergyAnalyzer.addBill {} recB).monthlyData (2000, 1) =
      lookupBucket ({} : EnergyAnalyzer).monthlyData (2000, 1) ∧
    (EnergyAnalyzer.addBill {} recB).dailySolarData = ({} : EnergyAnalyzer).dailySolarData ∧
    lookupBucket (EnergyAnalyzer.addBill {} recB).monthlyData (monthKeyPair recB.date) =
      some (applyToBucket recB
        ((lookupBucket ({} : EnergyAnalyzer).monthlyData (monthKeyPair recB.date)).getD
          (emptyBucket (monthKey recB.date)))) ∧
    untouchedBy recB
      ((lookupBucket ({} : EnergyAnalyzer).monthlyData (monthKeyPair recB.date)).getD
        (emptyBucket (monthKey recB.date)))
      (applyToBucket recB
        ((lookupBucket ({} : EnergyAnalyzer).monthlyData (monthKeyPair recB.date)).getD
          (emptyBucket (monthKey recB.date))))) :=
  ⟨by decide, claim10_frame {} recB (2000, 1) (by decide)⟩

/-- A National Grid capture with a positive net usage figure. -/
def ngImportCapture : NGCapture :=
  { billingPeriod := some (⟨2024, 4, 16⟩, ⟨2024, 5, 15⟩), netUsage := some 320 }

/-- Witness for claim C7 at a concrete parsed record. -/
theorem claim7_witness :
    NationalGridParser.parse ngImportCapture =
      some { date := some ⟨2024, 5, 15⟩, startDate := some ⟨2024, 4, 16⟩,
             endDate := some ⟨2024, 5, 15⟩, usage := 320, exported := 0,
             production := 0, cost := 0, credit := 0 } ∧
    ¬(0 < (320 : ℚ) ∧ 0 < (0 : ℚ)) :=
  ⟨by decide,
    claim7_import_export_exclusive ngImportCapture
      { date := some ⟨2024, 5, 15⟩, startDate := some ⟨2024, 4, 16⟩,
        endDate := some ⟨2024, 5, 15⟩, usage := 320, exported := 0,
        production := 0, cost := 0, credit := 0 } (by decide)⟩

end HomeEnergy
